import Mathlib

/-!
Verification of the SocTalk core against its specification.

This file is a shallow embedding, in Lean 4, of the parts of the SocTalk
source that the verified properties talk about:

* `src/soctalk/persistence/store.py` — `EventStore.append` and its reads
  (optimistic concurrency, idempotency keys);
* `src/soctalk/persistence/projector.py` — the projection of events onto the
  `investigations` read-model row, and `ProjectingEventStore.append`;
* `src/soctalk/polling/correlator.py` — `AlertCorrelator.correlate`;
* `src/soctalk/polling/queue.py` — `InvestigationQueue.add`;
* `src/soctalk/graph/builder.py` — `route_from_verdict`;
* `src/soctalk/graph/hil.py` — the human-review node's decision-event
  emission;
* `src/soctalk/supervisor/node.py` and `src/soctalk/supervisor/verdict.py` —
  the LLM JSON response parsing pipeline.

Modelling conventions: UUIDs become `Nat`/`String` identifiers, UTC datetimes
become `Int` seconds, JSON payload dictionaries become records of optional
fields (a missing key is `none`), Python "truthiness" of an optional string
is spelled out (`none` and `some ""` are falsy), and SQL tables become Lean
lists.  Database sessions disappear: each stateful operation is a pure
function from state to state.
-/

namespace SocTalk

/-! ## Shared string helpers (Python `in`, `lower()`, `upper()` …) -/

/-- Python `sub in s` on character lists: `sub` occurs contiguously in `l`. -/
def listHasSub (sub : List Char) : List Char → Bool
  | [] => sub.isPrefixOf []
  | c :: t => sub.isPrefixOf (c :: t) || listHasSub sub t

/-- Python `sub in s` for strings (substring containment; `"" in s` is true). -/
def strHasSub (s sub : String) : Bool :=
  listHasSub sub.data s.data

/-- Python truthiness of an `Optional[str]`: `None` and `""` are falsy. -/
def optStrTruthy : Option String → Bool
  | none => false
  | some s => s ≠ ""

/-- ASCII lower-casing of one character (Python `str.lower` on the ASCII
inputs this code handles). -/
def pyLowerChar (c : Char) : Char :=
  if 'A' ≤ c && c ≤ 'Z' then Char.ofNat (c.toNat + 32) else c

/-- Python `s.lower()` (ASCII). -/
def pyLower (s : String) : String := ⟨s.data.map pyLowerChar⟩

/-- ASCII upper-casing of one character. -/
def pyUpperChar (c : Char) : Char :=
  if 'a' ≤ c && c ≤ 'z' then Char.ofNat (c.toNat - 32) else c

/-- Python `s.upper()` (ASCII). -/
def pyUpper (s : String) : String := ⟨s.data.map pyUpperChar⟩

/-- The whitespace stripped by Python `str.strip()` (ASCII). -/
def isPyStripWs (c : Char) : Bool :=
  c = ' ' || c = '\t' || c = '\n' || c = '\r' ||
  c = Char.ofNat 11 || c = Char.ofNat 12

/-- Python `s.strip()`. -/
def pyStrip (s : String) : String :=
  ⟨((s.data.dropWhile isPyStripWs).reverse.dropWhile isPyStripWs).reverse⟩

/-- Python `s[:n]`. -/
def pyTake (s : String) (n : Nat) : String := ⟨s.data.take n⟩

/-- Python `s.startswith(pre)`. -/
def strStartsWith (s pre : String) : Bool :=
  pre.data.isPrefixOf s.data

end SocTalk

namespace SocTalk

/-! ## Event store (`src/soctalk/persistence/store.py`)

The `events` table is a list of `StoredEvent` in insertion order.  Event
payloads (`data`, a JSONB column) are modelled as a record of the optional
fields that the projector reads; `id` is a fresh natural number instead of a
random UUID (only uniqueness matters). -/

/-- The JSON payload of an event, restricted to the keys the projector's
investigation-row handlers read.  A missing key is `none`; `is_malicious`
models `event.data.get("is_malicious", False)`. -/
structure EventData where
  title : Option String := none
  max_severity : Option String := none
  severity : Option String := none
  resolution : Option String := none
  verdict_decision : Option String := none
  thehive_case_id : Option String := none
  case_id : Option String := none
  decision : Option String := none
  confidence : Option Rat := none
  new_phase : Option String := none
  to_phase : Option String := none
  phase : Option String := none
  is_malicious : Bool := false
  deriving Repr, DecidableEq

/-- A row of the `events` table (`Event` in
`src/soctalk/persistence/models.py`). -/
structure StoredEvent where
  id : Nat
  aggregate_id : Nat
  aggregate_type : String := "Investigation"
  event_type : String
  version : Nat
  timestamp : Int
  data : EventData
  idempotency_key : Option String := none
  deriving Repr, DecidableEq

/-- Errors raised by `EventStore.append`:
`ConcurrencyError(aggregate_id, expected_version, actual_version)` and
`IdempotencyError(idempotency_key)`. -/
inductive AppendError where
  | concurrency (aggregate_id : Nat) (expected_version actual_version : Nat)
  | idempotency (idempotency_key : String)
  deriving Repr, DecidableEq

/-- `EventStore.get_latest_version`: max stored version for the aggregate,
`0` if none (the source selects `ORDER BY version DESC LIMIT 1`). -/
def getLatestVersion (log : List StoredEvent) (aggregate_id : Nat) : Nat :=
  (log.filter (fun e => e.aggregate_id == aggregate_id)).foldl
    (fun m e => max m e.version) 0

/-- `EventStore._get_by_idempotency_key`: the stored event with the given
key, if any (the unique index keeps at most one). -/
def getByIdempotencyKey (log : List StoredEvent) (key : String) :
    Option StoredEvent :=
  log.find? (fun e => e.idempotency_key == some key)

/-- The `session.add` / `flush` step of `EventStore.append`, together with
the unique-constraint checks the database performs on insert: a violation on
`(aggregate_id, version)` maps to `ConcurrencyError`, one on
`idempotency_key` (which in SQL also fires for the falsy key `""`) maps to
`IdempotencyError`. -/
def insertEvent (log : List StoredEvent) (aggregate_id : Nat)
    (event_type : String) (data : EventData) (aggregate_type : String)
    (idempotency_key : Option String) (now : Int) (new_version : Nat) :
    Except AppendError (StoredEvent × List StoredEvent) :=
  if log.any (fun e => e.aggregate_id == aggregate_id &&
      e.version == new_version) then
    .error (.concurrency aggregate_id (new_version - 1)
      (getLatestVersion log aggregate_id))
  else
    match idempotency_key with
    | some key =>
      if log.any (fun e => e.idempotency_key == some key) then
        .error (.idempotency key)
      else
        let event : StoredEvent :=
          { id := log.length, aggregate_id := aggregate_id,
            aggregate_type := aggregate_type, event_type := event_type,
            version := new_version, timestamp := now, data := data,
            idempotency_key := some key }
        .ok (event, log ++ [event])
    | none =>
      let event : StoredEvent :=
        { id := log.length, aggregate_id := aggregate_id,
          aggregate_type := aggregate_type, event_type := event_type,
          version := new_version, timestamp := now, data := data,
          idempotency_key := none }
      .ok (event, log ++ [event])

/-- The body of `EventStore.append` after the optimistic-concurrency check:
if a truthy `idempotency_key` (non-`None`, non-empty — Python
`if idempotency_key:`) is already stored, return the existing event with no
insert; otherwise insert at `version = current + 1`. -/
def appendAfterVersionCheck (log : List StoredEvent) (aggregate_id : Nat)
    (event_type : String) (data : EventData) (aggregate_type : String)
    (idempotency_key : Option String) (now : Int) (current_version : Nat) :
    Except AppendError (StoredEvent × List StoredEvent) :=
  let new_version := current_version + 1
  match idempotency_key with
  | some key =>
    if key ≠ "" then
      match getByIdempotencyKey log key with
      | some existing => .ok (existing, log)
      | none => insertEvent log aggregate_id event_type data aggregate_type
          (some key) now new_version
    else insertEvent log aggregate_id event_type data aggregate_type
      (some key) now new_version
  | none => insertEvent log aggregate_id event_type data aggregate_type
      none now new_version

/-- `EventStore.append`.  Mirrors the source step by step:
1. read the current max version for the aggregate;
2. optimistic-concurrency check against `expected_version` (raised before
   anything else, in particular before the idempotency-key lookup);
3. idempotency-key lookup and insert (`appendAfterVersionCheck`). -/
def append (log : List StoredEvent) (aggregate_id : Nat) (event_type : String)
    (data : EventData) (aggregate_type : String)
    (expected_version : Option Nat) (idempotency_key : Option String)
    (now : Int) : Except AppendError (StoredEvent × List StoredEvent) :=
  let current_version := getLatestVersion log aggregate_id
  match expected_version with
  | some ev =>
    if current_version ≠ ev then
      .error (.concurrency aggregate_id ev current_version)
    else appendAfterVersionCheck log aggregate_id event_type data
      aggregate_type idempotency_key now current_version
  | none => appendAfterVersionCheck log aggregate_id event_type data
      aggregate_type idempotency_key now current_version

/-- Insertion by ascending `version` (one step of `ORDER BY version`). -/
def insertByVersion (e : StoredEvent) : List StoredEvent → List StoredEvent
  | [] => [e]
  | x :: t => if e.version ≤ x.version then e :: x :: t
              else x :: insertByVersion e t

/-- Sort a list of events by ascending version. -/
def sortByVersion : List StoredEvent → List StoredEvent
  | [] => []
  | x :: t => insertByVersion x (sortByVersion t)

/-- `EventStore.get_events(aggregate_id)`: the aggregate's events ordered by
version ascending (no version bounds given). -/
def getEvents (log : List StoredEvent) (aggregate_id : Nat) :
    List StoredEvent :=
  sortByVersion (log.filter (fun e => e.aggregate_id == aggregate_id))

end SocTalk

namespace SocTalk

/-! ## Projector (`src/soctalk/persistence/projector.py`)

Only the effects on the `investigations` read-model row are embedded: the
claims under verification are about that row.  The hourly-metrics, IOC,
rule, analyzer and pending-review side tables receive no writes that feed
back into the investigation row, so omitting them does not change it. -/

/-- A row of the `investigations` read model (`InvestigationReadModel` in
`src/soctalk/persistence/models.py`), restricted to the columns the
projector writes.  Field defaults mirror the column defaults; `created_at`
and `updated_at` default to the wall-clock time at which the row object is
constructed, which is why `getOrCreateInvestigation` takes a `wallNow`. -/
structure InvRow where
  id : Nat
  title : Option String := none
  status : String := "pending"
  phase : String := "triage"
  created_at : Int
  updated_at : Int
  closed_at : Option Int := none
  time_to_triage_seconds : Option Int := none
  time_to_verdict_seconds : Option Int := none
  alert_count : Nat := 0
  observable_count : Nat := 0
  malicious_count : Nat := 0
  suspicious_count : Nat := 0
  clean_count : Nat := 0
  max_severity : Option String := none
  verdict_decision : Option String := none
  verdict_confidence : Option Rat := none
  thehive_case_id : Option String := none
  deriving Repr, DecidableEq

/-- `Projector._get_or_create_investigation`: reuse the existing row or
construct a fresh one with column defaults (`created_at`/`updated_at` are
the construction wall-clock time `wallNow`). -/
def getOrCreateInvestigation (aggregate_id : Nat) (wallNow : Int)
    (row : Option InvRow) : InvRow :=
  row.getD { id := aggregate_id, created_at := wallNow, updated_at := wallNow }

/-- `Projector._compare_severity` severity ranks: `low=1, medium=2, high=3,
critical=4`, any other string `0` (`severity_order.get(s.lower(), 0)`). -/
def severityRank (s : String) : Nat :=
  let l := pyLower s
  if l = "low" then 1
  else if l = "medium" then 2
  else if l = "high" then 3
  else if l = "critical" then 4
  else 0

/-- `Projector._compare_severity`: `-1` if `s1 < s2`, `0` if equal ranks,
`1` if `s1 > s2`. -/
def compareSeverity (s1 s2 : String) : Int :=
  let v1 := severityRank s1
  let v2 := severityRank s2
  if v1 < v2 then -1 else if v1 > v2 then 1 else 0

/-- `Projector._project_investigation_created` (investigation-row part). -/
def projectInvestigationCreated (e : StoredEvent) (inv : InvRow) : InvRow :=
  { inv with
    created_at := e.timestamp, updated_at := e.timestamp,
    status := "pending", phase := "triage",
    title := if e.data.title.isSome then e.data.title else inv.title,
    max_severity := if e.data.max_severity.isSome then e.data.max_severity
                    else inv.max_severity }

/-- `Projector._project_investigation_started`. -/
def projectInvestigationStarted (e : StoredEvent) (inv : InvRow) : InvRow :=
  { inv with
    status := "in_progress", updated_at := e.timestamp,
    title := if e.data.title.isSome then e.data.title else inv.title }

/-- `Projector._project_investigation_paused`. -/
def projectInvestigationPaused (e : StoredEvent) (inv : InvRow) : InvRow :=
  { inv with status := "paused", updated_at := e.timestamp }

/-- `Projector._project_investigation_resumed`. -/
def projectInvestigationResumed (e : StoredEvent) (inv : InvRow) : InvRow :=
  { inv with status := "in_progress", updated_at := e.timestamp }

/-- `Projector._project_investigation_cancelled` (investigation-row part;
`created_at` is always a truthy datetime, so only the
`time_to_triage_seconds is None` test remains). -/
def projectInvestigationCancelled (e : StoredEvent) (inv : InvRow) : InvRow :=
  let inv := { inv with
    status := "cancelled", closed_at := some e.timestamp,
    updated_at := e.timestamp, phase := "closed" }
  if inv.time_to_triage_seconds.isNone then
    { inv with time_to_triage_seconds := some (e.timestamp - inv.created_at) }
  else inv

/-- `Projector._project_alert_correlated` (investigation-row part):
increment `alert_count` and upgrade `max_severity` when the payload carries
a truthy severity that ranks strictly higher. -/
def projectAlertCorrelated (e : StoredEvent) (inv : InvRow) : InvRow :=
  let inv := { inv with alert_count := inv.alert_count + 1,
                        updated_at := e.timestamp }
  match e.data.severity with
  | some sev =>
    if sev ≠ "" then
      match inv.max_severity with
      | none => { inv with max_severity := some sev }
      | some cur =>
        if compareSeverity sev cur > 0 then { inv with max_severity := some sev }
        else inv
    else inv
  | none => inv

/-- `Projector._project_observable_extracted` (investigation-row part). -/
def projectObservableExtracted (e : StoredEvent) (inv : InvRow) : InvRow :=
  { inv with observable_count := inv.observable_count + 1,
             updated_at := e.timestamp }

/-- `Projector._project_enrichment_completed` (investigation-row part). -/
def projectEnrichmentCompleted (e : StoredEvent) (inv : InvRow) : InvRow :=
  let inv := { inv with updated_at := e.timestamp }
  if e.data.is_malicious then
    { inv with malicious_count := inv.malicious_count + 1 }
  else inv

/-- `Projector._project_verdict_rendered` (investigation-row part;
`created_at` is always truthy so `time_to_verdict_seconds` is always
computed). -/
def projectVerdictRendered (e : StoredEvent) (inv : InvRow) : InvRow :=
  { inv with
    updated_at := e.timestamp, phase := "verdict",
    verdict_decision := e.data.decision,
    verdict_confidence := e.data.confidence,
    time_to_verdict_seconds := some (e.timestamp - inv.created_at) }

/-- `Projector._project_investigation_escalated` (investigation-row part). -/
def projectInvestigationEscalated (e : StoredEvent) (inv : InvRow) : InvRow :=
  { inv with status := "escalated", phase := "escalation",
             updated_at := e.timestamp }

/-- `Projector._project_investigation_auto_closed` (investigation-row
part). -/
def projectInvestigationAutoClosed (e : StoredEvent) (inv : InvRow) : InvRow :=
  { inv with status := "auto_closed", closed_at := some e.timestamp,
             updated_at := e.timestamp, phase := "closed" }

/-- `Projector._project_investigation_closed` (investigation-row part):
lower-case the payload's `resolution` and `verdict_decision`, copy a truthy
`thehive_case_id` and a non-empty `verdict_decision` onto the row, then
derive the final status by the source's cascade. -/
def projectInvestigationClosed (e : StoredEvent) (inv : InvRow) : InvRow :=
  let resolution := pyLower ((e.data.resolution).getD "")
  let verdict_decision := pyLower ((e.data.verdict_decision).getD "")
  let inv :=
    if optStrTruthy e.data.thehive_case_id then
      { inv with thehive_case_id := e.data.thehive_case_id }
    else inv
  let inv :=
    if verdict_decision ≠ "" then
      { inv with verdict_decision := some verdict_decision }
    else inv
  let inv :=
    if optStrTruthy inv.thehive_case_id then
      { inv with status := "escalated" }
    else if strHasSub resolution "rejected" then
      { inv with status := "rejected" }
    else if verdict_decision = "close" &&
        strHasSub resolution "closed by ai verdict" then
      { inv with status := "auto_closed" }
    else
      { inv with status := "closed" }
  let inv := { inv with closed_at := some e.timestamp,
                        updated_at := e.timestamp, phase := "closed" }
  if inv.time_to_triage_seconds.isNone then
    { inv with time_to_triage_seconds := some (e.timestamp - inv.created_at) }
  else inv

/-- `Projector._project_thehive_case_created` (investigation-row part; note
the unconditional `thehive_case_id = event.data.get("case_id")`). -/
def projectTheHiveCaseCreated (e : StoredEvent) (inv : InvRow) : InvRow :=
  { inv with thehive_case_id := e.data.case_id, status := "escalated",
             phase := "escalation", updated_at := e.timestamp }

/-- `Projector._project_phase_changed`: the first truthy of
`new_phase`/`to_phase`/`phase` (Python `or` chain) sets the phase; entering
`"verdict"` fixes `time_to_triage_seconds` if unset. -/
def projectPhaseChanged (e : StoredEvent) (inv : InvRow) : InvRow :=
  let pick := fun (o : Option String) (alt : Option String) =>
    match o with
    | some s => if s ≠ "" then some s else alt
    | none => alt
  let new_phase := pick e.data.new_phase (pick e.data.to_phase
    (pick e.data.phase none))
  let inv :=
    match new_phase with
    | some p => { inv with phase := p, updated_at := e.timestamp }
    | none => { inv with updated_at := e.timestamp }
  if new_phase == some "verdict" && inv.time_to_triage_seconds.isNone then
    { inv with time_to_triage_seconds := some (e.timestamp - inv.created_at) }
  else inv

/-- `Projector._project_human_review_requested` (investigation-row part:
the pending-review insert touches only the `pending_reviews` table). -/
def projectHumanReviewRequested (e : StoredEvent) (inv : InvRow) : InvRow :=
  let inv := { inv with phase := "human_review" }
  let inv := if inv.status = "pending" then { inv with status := "in_progress" }
             else inv
  { inv with updated_at := e.timestamp }

/-- `Projector.project`: dispatch on `event_type`.  Handlers that call
`_get_or_create_investigation` create the row when absent;
`HUMAN_DECISION_RECEIVED` and the analyzer events leave the investigation
row (and its absence) untouched, as do unknown event types. -/
def projectInv (e : StoredEvent) (wallNow : Int) (row : Option InvRow) :
    Option InvRow :=
  let got := getOrCreateInvestigation e.aggregate_id wallNow row
  if e.event_type = "investigation.created" then
    some (projectInvestigationCreated e got)
  else if e.event_type = "investigation.started" then
    some (projectInvestigationStarted e got)
  else if e.event_type = "investigation.paused" then
    some (projectInvestigationPaused e got)
  else if e.event_type = "investigation.resumed" then
    some (projectInvestigationResumed e got)
  else if e.event_type = "investigation.cancelled" then
    some (projectInvestigationCancelled e got)
  else if e.event_type = "alert.correlated" then
    some (projectAlertCorrelated e got)
  else if e.event_type = "observable.extracted" then
    some (projectObservableExtracted e got)
  else if e.event_type = "enrichment.completed" then
    some (projectEnrichmentCompleted e got)
  else if e.event_type = "verdict.rendered" then
    some (projectVerdictRendered e got)
  else if e.event_type = "investigation.escalated" then
    some (projectInvestigationEscalated e got)
  else if e.event_type = "investigation.auto_closed" then
    some (projectInvestigationAutoClosed e got)
  else if e.event_type = "investigation.closed" then
    some (projectInvestigationClosed e got)
  else if e.event_type = "thehive.case_created" then
    some (projectTheHiveCaseCreated e got)
  else if e.event_type = "phase.changed" then
    some (projectPhaseChanged e got)
  else if e.event_type = "human.review_requested" then
    some (projectHumanReviewRequested e got)
  else
    row

end SocTalk

namespace SocTalk

/-! ## ProjectingEventStore (`src/soctalk/persistence/projector.py`)

`ProjectingEventStore.append` delegates to `EventStore.append` and then
projects whatever event that call returned — including an already-stored
event returned on an idempotency-key hit. -/

/-- Whole-system persistence state: the `events` table plus the
`investigations` read-model table (an association list keyed by
aggregate id). -/
structure SysState where
  log : List StoredEvent
  rows : List (Nat × InvRow)
  deriving Repr, DecidableEq

/-- The empty database. -/
def emptySysState : SysState := { log := [], rows := [] }

/-- Look up the investigation row for an aggregate. -/
def rowsLookup (rows : List (Nat × InvRow)) (aggregate_id : Nat) :
    Option InvRow :=
  (rows.find? (fun p => p.1 == aggregate_id)).map (fun p => p.2)

/-- Store (insert or overwrite) the investigation row for an aggregate. -/
def rowsSet : List (Nat × InvRow) → Nat → InvRow → List (Nat × InvRow)
  | [], aggregate_id, r => [(aggregate_id, r)]
  | (a, x) :: t, aggregate_id, r =>
    if a == aggregate_id then (a, r) :: t else (a, x) :: rowsSet t aggregate_id r

/-- `Projector.project` lifted to the whole-system state. -/
def projectStep (s : SysState) (e : StoredEvent) (wallNow : Int) : SysState :=
  match projectInv e wallNow (rowsLookup s.rows e.aggregate_id) with
  | some r => { s with rows := rowsSet s.rows e.aggregate_id r }
  | none => s

/-- One call to `ProjectingEventStore.append`: append to the event store,
then project the returned event within the same transaction.  Note that the
returned event is projected even when `EventStore.append` answered an
idempotency-key hit with the already-stored event. -/
def projectingAppend (s : SysState) (aggregate_id : Nat) (event_type : String)
    (data : EventData) (aggregate_type : String)
    (expected_version : Option Nat) (idempotency_key : Option String)
    (now : Int) : Except AppendError (StoredEvent × SysState) :=
  match append s.log aggregate_id event_type data aggregate_type
      expected_version idempotency_key now with
  | .error err => .error err
  | .ok (event, log') =>
    .ok (event, projectStep { s with log := log' } event now)

/-- The arguments of one online `ProjectingEventStore.append` call. -/
structure AppendCall where
  aggregate_id : Nat
  event_type : String
  data : EventData := {}
  aggregate_type : String := "Investigation"
  expected_version : Option Nat := none
  idempotency_key : Option String := none
  now : Int
  deriving Repr, DecidableEq

/-- Run a sequence of online append-and-project calls; a call that raises
leaves the state unchanged (the caller's transaction rolls back nothing
already committed by earlier calls). -/
def runCalls (s : SysState) : List AppendCall → SysState
  | [] => s
  | c :: t =>
    match projectingAppend s c.aggregate_id c.event_type c.data
        c.aggregate_type c.expected_version c.idempotency_key c.now with
    | .ok (_, s') => runCalls s' t
    | .error _ => runCalls s t

/-- Rebuild an investigation row from a blank read model by replaying
`get_events(aggregate_id)` in order through the projector (`replayWallNow`
is the wall-clock time of the replay, used only for fresh-row column
defaults). -/
def replayRow (log : List StoredEvent) (aggregate_id : Nat)
    (replayWallNow : Int) : Option InvRow :=
  (getEvents log aggregate_id).foldl
    (fun row e => projectInv e replayWallNow row) none

end SocTalk

namespace SocTalk

/-! ## In-memory models (`src/soctalk/models/…`) used by polling -/

/-- `Severity` enum (`src/soctalk/models/enums.py`). -/
inductive Sev where
  | low | medium | high | critical
  deriving Repr, DecidableEq

/-- The enum's string `.value`. -/
def Sev.value : Sev → String
  | .low => "low" | .medium => "medium" | .high => "high"
  | .critical => "critical"

/-- An observable, restricted to the fields the correlator reads
(`obs.type.value` and `obs.value`). -/
structure Obs where
  otype : String
  value : String
  deriving Repr, DecidableEq

/-- An alert (`src/soctalk/models/alerts.py`), restricted to the fields the
correlator and queue read; `agent_name` flattens `alert.source.agent_name`. -/
structure Alert where
  id : String
  timestamp : Int
  severity : Sev
  rule_description : String
  agent_name : String
  observables : List Obs := []
  deriving Repr, DecidableEq

/-- An investigation (`src/soctalk/models/investigation.py`), restricted to
the fields the correlator builds and the queue reads.  The random UUID `id`
is abstracted to a string defaulting to `""`: no verified behaviour depends
on its value (queue deduplication quantifies over arbitrary ids). -/
structure Investigation where
  id : String := ""
  title : String := "Untitled Investigation"
  alerts : List Alert := []
  observables : List Obs := []
  deriving Repr, DecidableEq

/-- `Investigation.add_alert`: append the alert and merge its observables,
skipping duplicates. -/
def addAlert (inv : Investigation) (a : Alert) : Investigation :=
  { inv with
    alerts := inv.alerts ++ [a],
    observables := a.observables.foldl
      (fun os o => if os.contains o then os else os ++ [o]) inv.observables }

/-- `severity_order` of `Investigation.max_severity`
(`{low:0, medium:1, high:2, critical:3}`; `.get(…, 0)` never defaults for
enum members). -/
def invSeverityOrder : Sev → Nat
  | .low => 0 | .medium => 1 | .high => 2 | .critical => 3

/-- Python `max(alerts, key=…)`: the first alert attaining the maximal key
(later elements replace only on a strictly greater key). -/
def maxBySeverity (cur : Alert) : List Alert → Alert
  | [] => cur
  | a :: t => maxBySeverity
      (if invSeverityOrder a.severity > invSeverityOrder cur.severity then a
       else cur) t

/-- `Investigation.max_severity`: maximum alert severity, `low` if there are
no alerts. -/
def maxSeverity (inv : Investigation) : Sev :=
  match inv.alerts with
  | [] => .low
  | a :: t => (maxBySeverity a t).severity

/-- The generic descriptions skipped by `Investigation.generate_title`. -/
def genericDescriptions : List String :=
  ["no description available", "no description", ""]

/-- `Investigation.generate_title`. -/
def generateTitle (inv : Investigation) : String :=
  match inv.alerts with
  | [] => "Empty Investigation"
  | a0 :: _ =>
    let best? := inv.alerts.findSome? (fun a =>
      let desc := pyStrip a.rule_description
      if genericDescriptions.contains (pyLower desc) then none else some desc)
    let best :=
      match best? with
      | some d => d
      | none =>
        if a0.rule_description ≠ "" then a0.rule_description
        else "Security Alert"
    let base := pyTake best 50
    if inv.alerts.length > 1 then
      base ++ " (+" ++ toString (inv.alerts.length - 1) ++ " related alerts)"
    else base

end SocTalk

namespace SocTalk

/-! ## Alert correlator (`src/soctalk/polling/correlator.py`) -/

/-- `AlertCorrelator._extract_rule_groups`'s `group_patterns` table. -/
def groupPatterns : List (String × String) :=
  [("sysmon", "sysmon"), ("authentication", "auth"), ("brute", "bruteforce"),
   ("malware", "malware"), ("rootkit", "rootkit"), ("web", "web_attack"),
   ("sql", "sql_injection"), ("file integrity", "fim"),
   ("vulnerability", "vuln")]

/-- `AlertCorrelator._extract_rule_groups`: the groups whose pattern occurs
in the lower-cased rule description, in table order. -/
def extractRuleGroups (alert : Alert) : List String :=
  let descLower := pyLower alert.rule_description
  (groupPatterns.filter (fun pg => strHasSub descLower pg.1)).map (fun pg => pg.2)

/-- `AlertCorrelator._get_correlation_keys`: agent key (if the agent name is
truthy and not `"unknown"`), then one key per IP/hash/domain observable,
then rule-group keys. -/
def getCorrelationKeys (alert : Alert) : List String :=
  let agentKeys :=
    if alert.agent_name ≠ "" && alert.agent_name ≠ "unknown" then
      ["agent:" ++ alert.agent_name]
    else []
  let obsKeys := alert.observables.flatMap (fun o =>
    if o.otype = "ip" then ["ip:" ++ o.value]
    else if o.otype = "hash_md5" || o.otype = "hash_sha256" ||
        o.otype = "hash_sha1" then ["hash:" ++ o.value]
    else if o.otype = "domain" then ["domain:" ++ o.value]
    else [])
  let groupKeys := (extractRuleGroups alert).map (fun g => "rulegroup:" ++ g)
  agentKeys ++ obsKeys ++ groupKeys

/-- Append an alert to the bucket of `key`, creating the bucket at the end
if absent (Python `defaultdict` preserves key-insertion order). -/
def bucketsAdd : List (String × List Alert) → String → Alert →
    List (String × List Alert)
  | [], key, a => [(key, [a])]
  | (k, as) :: t, key, a =>
    if k == key then (k, as ++ [a]) :: t else (k, as) :: bucketsAdd t key a

/-- The bucketing loop of `AlertCorrelator.correlate`: each alert goes to
the bucket of its first (strongest) key, or to a `standalone_<id>` bucket. -/
def bucketAlerts (alerts : List Alert) : List (String × List Alert) :=
  alerts.foldl (fun groups a =>
    match getCorrelationKeys a with
    | key :: _ => bucketsAdd groups key a
    | [] => bucketsAdd groups ("standalone_" ++ a.id) a) []

/-- One step of the cross-bucket deduplication by alert id. -/
def dedupStep (acc : List Alert × List String) (a : Alert) :
    List Alert × List String :=
  let (uniq, seen) := acc
  if seen.contains a.id then acc else (uniq ++ [a], seen ++ [a.id])

/-- Python `max(alerts, key=lambda a: a.timestamp)` (first maximum wins). -/
def mostRecentAux (cur : Alert) : List Alert → Alert
  | [] => cur
  | a :: t => mostRecentAux (if a.timestamp > cur.timestamp then a else cur) t

/-- `AlertCorrelator._filter_by_time_window`: keep alerts whose timestamp is
at least `max(timestamps) − window_minutes` (minutes become seconds). -/
def filterByTimeWindow (windowMinutes : Int) (alerts : List Alert) :
    List Alert :=
  match alerts with
  | [] => []
  | a :: t =>
    let mostRecent := mostRecentAux a t
    let cutoff := mostRecent.timestamp - windowMinutes * 60
    (a :: t).filter (fun x => cutoff ≤ x.timestamp)

/-- `AlertCorrelator._merge_overlapping_groups`: no merging — deduplicate
alerts across buckets by id (threading the seen set through the buckets in
order) and keep each bucket's in-window alerts when any survive. -/
def mergeOverlappingGroups (windowMinutes : Int) :
    List (String × List Alert) → List String → List (List Alert)
  | [], _ => []
  | (_, as) :: t, seen =>
    let (uniq, seen') := as.foldl dedupStep ([], seen)
    if uniq ≠ [] then
      let filtered := filterByTimeWindow windowMinutes uniq
      if filtered ≠ [] then
        filtered :: mergeOverlappingGroups windowMinutes t seen'
      else mergeOverlappingGroups windowMinutes t seen'
    else mergeOverlappingGroups windowMinutes t seen'

/-- `AlertCorrelator._create_investigation`: fold the group's alerts into a
fresh investigation, then set its generated title. -/
def createInvestigation (alerts : List Alert) : Investigation :=
  let inv := alerts.foldl addAlert {}
  { inv with title := generateTitle inv }

/-- The correlator's final sort key
(`{critical:0, high:1, medium:2, low:3}.get(max_severity.value, 4)`). -/
def corrSeverityOrder : Sev → Nat
  | .critical => 0 | .high => 1 | .medium => 2 | .low => 3

/-- Stable ascending insertion for the final severity sort. -/
def insertBySeverity (inv : Investigation) :
    List Investigation → List Investigation
  | [] => [inv]
  | x :: t =>
    if corrSeverityOrder (maxSeverity inv) ≤ corrSeverityOrder (maxSeverity x)
    then inv :: x :: t
    else x :: insertBySeverity inv t

/-- Stable sort of investigations by maximal severity (critical first),
matching Python's stable `list.sort`. -/
def sortInvestigations : List Investigation → List Investigation
  | [] => []
  | x :: t => insertBySeverity x (sortInvestigations t)

/-- `AlertCorrelator.correlate`: bucket, merge/deduplicate/window-filter,
build one investigation per surviving bucket, sort by severity. -/
def correlate (windowMinutes : Int) (alerts : List Alert) :
    List Investigation :=
  match alerts with
  | [] => []
  | _ =>
    let groups := bucketAlerts alerts
    let merged := mergeOverlappingGroups windowMinutes groups []
    sortInvestigations (merged.map createInvestigation)

end SocTalk

namespace SocTalk

/-! ## Investigation queue (`src/soctalk/polling/queue.py`) -/

/-- `PrioritizedInvestigation`: only `priority` participates in ordering
(`timestamp` and `investigation` are `compare=False` fields). -/
structure PrioritizedInv where
  priority : Nat
  timestamp : Int
  investigation : Investigation
  deriving Repr, DecidableEq

instance : Inhabited PrioritizedInv := ⟨⟨0, 0, {}⟩⟩

/-- `InvestigationQueue._severity_to_priority`
(`{critical:0, high:1, medium:2, low:3}.get(severity, 4)`; the default is
unreachable for enum members). -/
def severityToPriority : Sev → Nat
  | .critical => 0 | .high => 1 | .medium => 2 | .low => 3

/-- `heapq._siftdown(heap, 0, pos)`: bubble `item` up from `pos`, comparing
only `priority` (the dataclass's sole ordered field). -/
def siftUp (a : Array PrioritizedInv) (item : PrioritizedInv) (pos : Nat) :
    Array PrioritizedInv :=
  if pos > 0 then
    let parentpos := (pos - 1) / 2
    let parent := a.get! parentpos
    if item.priority < parent.priority then
      siftUp (a.set! pos parent) item parentpos
    else a.set! pos item
  else a.set! pos item
termination_by pos
decreasing_by
  have hle : (pos - 1) / 2 ≤ pos - 1 := Nat.div_le_self _ _
  omega

/-- `heapq.heappush`: append, then sift up from the last position. -/
def heapPush (heap : Array PrioritizedInv) (item : PrioritizedInv) :
    Array PrioritizedInv :=
  let a := heap.push item
  siftUp a item (a.size - 1)

/-- The mutable state of `InvestigationQueue` (`TITLE_BLOCK_MINUTES = 10`,
i.e. 600 seconds in this model). -/
structure QueueState where
  max_size : Nat := 100
  heap : Array PrioritizedInv := #[]
  seen_ids : List String := []
  title_block_until : List (String × Int) := []
  deriving Repr, DecidableEq

/-- Dictionary lookup in `title_block_until`. -/
def titleBlockLookup (m : List (String × Int)) (k : String) : Option Int :=
  (m.find? (fun p => p.1 == k)).map (fun p => p.2)

/-- Dictionary write in `title_block_until`. -/
def titleBlockSet : List (String × Int) → String → Int → List (String × Int)
  | [], k, v => [(k, v)]
  | (k', v') :: t, k, v =>
    if k' == k then (k', v) :: t else (k', v') :: titleBlockSet t k v

/-- The accepting tail of `InvestigationQueue.add` (size check, heap push,
bookkeeping). -/
def queueAddAccept (q : QueueState) (inv : Investigation) (now : Int)
    (title : String) : Bool × QueueState :=
  if q.heap.size ≥ q.max_size then (false, q)
  else
    let priority := severityToPriority (maxSeverity inv)
    let item : PrioritizedInv :=
      { priority := priority, timestamp := now, investigation := inv }
    (true,
      { q with
        heap := heapPush q.heap item,
        seen_ids := q.seen_ids ++ [inv.id],
        title_block_until :=
          if title ≠ "" then titleBlockSet q.title_block_until title (now + 600)
          else q.title_block_until })

/-- The title-block test of `InvestigationQueue.add`: a non-empty title
whose `title_block_until` entry (a truthy datetime) lies in the future. -/
def titleBlocked (q : QueueState) (title : String) (now : Int) : Bool :=
  title ≠ "" &&
    (match titleBlockLookup q.title_block_until title with
     | some block_until => now < block_until
     | none => false)

/-- `InvestigationQueue.add`: reject duplicates by id, then time-blocked
non-empty titles, then a full heap; otherwise accept.  Returns the Python
return value paired with the updated state.  (`investigation.title or ""`
is the identity here since `title` is a plain string field.) -/
def queueAdd (q : QueueState) (inv : Investigation) (now : Int) :
    Bool × QueueState :=
  if q.seen_ids.contains inv.id then (false, q)
  else if titleBlocked q inv.title now then (false, q)
  else queueAddAccept q inv now inv.title

end SocTalk

namespace SocTalk

/-! ## Workflow routing (`src/soctalk/graph/builder.py`) -/

/-- The graph-state fields `route_from_verdict` reads: the `verdict` dict's
`decision` entry and `verdict_retry_count` (each may be absent). -/
structure VerdictStateView where
  decision : Option String := none
  deriving Repr, DecidableEq

/-- The dict-typed LangGraph state, restricted to what `route_from_verdict`
reads (`state.get("verdict", {})` and `state.get("verdict_retry_count", 0)`). -/
structure GraphState where
  verdict : Option VerdictStateView := none
  verdict_retry_count : Option Nat := none
  deriving Repr, DecidableEq

/-- `route_from_verdict`: escalate → human review, close → close node,
needs_more_info → supervisor unless `verdict_retry_count ≥ 2` (then human
review), anything else → human review. -/
def routeFromVerdict (state : GraphState) : String :=
  let verdict := state.verdict.getD {}
  let decision := verdict.decision.getD "needs_more_info"
  if decision = "escalate" then "human_review"
  else if decision = "close" then "close_investigation"
  else if decision = "needs_more_info" then
    let verdict_retries := state.verdict_retry_count.getD 0
    if verdict_retries ≥ 2 then "human_review"
    else "supervisor"
  else "human_review"

end SocTalk

namespace SocTalk

/-! ## Human-review node (`src/soctalk/graph/hil.py`) -/

/-- The resume payload injected into the suspended `human_review` node
(`{decision, feedback, reviewer, source}`; dashboard resumes carry
`source="dashboard"`). -/
structure ResumePayload where
  decision : Option String := none
  feedback : Option String := none
  reviewer : Option String := none
  source : Option String := none
  deriving Repr, DecidableEq

/-- `_coerce_human_decision`: normalise to one of the `HumanDecision`
values, defaulting to `more_info`. -/
def coerceHumanDecision : Option String → String
  | some s =>
    let normalized := pyLower (pyStrip s)
    if normalized = "approve" then "approve"
    else if normalized = "reject" then "reject"
    else if normalized = "more_info" then "more_info"
    else "more_info"
  | none => "more_info"

/-- What `_handle_noninteractive_review` returns after `interrupt` resumes:
`(decision, feedback, reviewer, emit_event)` with
`emit_event = source not in ("dashboard", "ui")`. -/
structure ReviewOutcome where
  decision : String
  feedback : Option String
  reviewer : Option String
  emit_event : Bool
  deriving Repr, DecidableEq

/-- The resume branch of `_handle_noninteractive_review` (the node resumed
from its `interrupt` with a dict payload). -/
def handleNoninteractiveResume (payload : ResumePayload) : ReviewOutcome :=
  { decision := coerceHumanDecision payload.decision,
    feedback := payload.feedback,
    reviewer := payload.reviewer,
    emit_event :=
      !(payload.source == some "dashboard" || payload.source == some "ui") }

/-- The event types `human_review_node` emits on the non-interactive resume
path: `HUMAN_REVIEW_REQUESTED` on entry (when an emitter and investigation
id are configured and the state flag is unset) and `HUMAN_DECISION_RECEIVED`
only when the review outcome's `emit_event` flag is set. -/
def humanReviewNodeEmits (hasEmitter hasInvId alreadyRequested : Bool)
    (payload : ResumePayload) : List String :=
  let requested :=
    if hasEmitter && hasInvId && !alreadyRequested then
      ["human.review_requested"]
    else []
  let outcome := handleNoninteractiveResume payload
  requested ++
    (if outcome.emit_event && hasEmitter && hasInvId then
      ["human.decision_received"]
    else [])

end SocTalk

namespace SocTalk

/-! ## LLM JSON response parsing (`src/soctalk/supervisor/node.py` and
`src/soctalk/supervisor/verdict.py`)

`json.loads` is embedded as a fuel-indexed recursive-descent parser over the
JSON grammar Python accepts (objects, arrays, strings with escapes, numbers
including the non-standard `NaN`/`Infinity`/`-Infinity` constants, `true`,
`false`, `null`; unescaped control characters inside strings are rejected as
in strict mode; trailing non-whitespace is rejected).  Numeric literals keep
their lexeme text — none of the verified properties inspect numeric
values. -/

/-- Parsed JSON values. -/
inductive JVal where
  | null
  | bool (b : Bool)
  | num (lexeme : String)
  | str (s : String)
  | arr (items : List JVal)
  | obj (fields : List (String × JVal))

/-- JSON whitespace (`' '`, `'\t'`, `'\n'`, `'\r'`). -/
def isJsonWs (c : Char) : Bool :=
  c = ' ' || c = '\t' || c = '\n' || c = '\r'

/-- Python regex `\s` whitespace (ASCII part). -/
def isPyWs (c : Char) : Bool :=
  c = ' ' || c = '\t' || c = '\n' || c = '\r' ||
  c = Char.ofNat 11 || c = Char.ofNat 12

/-- An opening curly brace. -/
def lbrace : Char := Char.ofNat 123

/-- A closing curly brace. -/
def rbrace : Char := Char.ofNat 125

/-- Skip JSON whitespace. -/
def skipWs (cs : List Char) : List Char := cs.dropWhile isJsonWs

/-- Numeric value of one hexadecimal digit (for `\uXXXX` escapes). -/
def hexDigitVal (c : Char) : Option Nat :=
  let n := c.toNat
  if 48 ≤ n && n ≤ 57 then some (n - 48)
  else if 97 ≤ n && n ≤ 102 then some (n - 87)
  else if 65 ≤ n && n ≤ 70 then some (n - 55)
  else none

/-- Decode the body of a JSON string literal (after the opening quote) up to
its closing quote.  Unescaped control characters are rejected (strict mode);
`\uXXXX` maps invalid scalar values to `Char.ofNat`'s default. -/
def parseStringBody : List Char → List Char → Option (String × List Char)
  | [], _ => none
  | c :: rest, acc =>
    if c = '"' then some (⟨acc.reverse⟩, rest)
    else if c = '\\' then
      match rest with
      | [] => none
      | e :: rest2 =>
        if e = '"' then parseStringBody rest2 ('"' :: acc)
        else if e = '\\' then parseStringBody rest2 ('\\' :: acc)
        else if e = '/' then parseStringBody rest2 ('/' :: acc)
        else if e = 'b' then parseStringBody rest2 (Char.ofNat 8 :: acc)
        else if e = 'f' then parseStringBody rest2 (Char.ofNat 12 :: acc)
        else if e = 'n' then parseStringBody rest2 ('\n' :: acc)
        else if e = 'r' then parseStringBody rest2 ('\r' :: acc)
        else if e = 't' then parseStringBody rest2 ('\t' :: acc)
        else if e = 'u' then
          match rest2 with
          | h1 :: h2 :: h3 :: h4 :: rest3 =>
            match hexDigitVal h1, hexDigitVal h2,
                hexDigitVal h3, hexDigitVal h4 with
            | some v1, some v2, some v3, some v4 =>
              parseStringBody rest3
                (Char.ofNat (((v1 * 16 + v2) * 16 + v3) * 16 + v4) :: acc)
            | _, _, _, _ => none
          | _ => none
        else none
    else if c.toNat < 32 then none
    else parseStringBody rest (c :: acc)

/-- Lex the digits prefix. -/
def takeDigits (cs : List Char) : List Char × List Char :=
  (cs.takeWhile Char.isDigit, cs.dropWhile Char.isDigit)

/-- Lex a JSON number (or `NaN`/`Infinity`/`-Infinity`), returning its
lexeme. -/
def parseNumber (cs : List Char) : Option (String × List Char) :=
  let core := fun (cs : List Char) (sign : List Char) =>
    match takeDigits cs with
    | ([], _) => none
    | (ds, rest) =>
      if ds.length > 1 && ds.head? = some '0' then none
      else
        let afterInt := rest
        let (fracPart, afterFrac) :=
          match afterInt with
          | '.' :: t =>
            match takeDigits t with
            | ([], _) => ([], afterInt)
            | (fs, r) => ('.' :: fs, r)
          | _ => ([], afterInt)
        if fracPart = [] && (afterInt.head? = some '.') then none
        else
          let (expPart, afterExp) :=
            match afterFrac with
            | c :: t =>
              if c = 'e' || c = 'E' then
                match t with
                | s :: t2 =>
                  if s = '+' || s = '-' then
                    match takeDigits t2 with
                    | ([], _) => ([], afterFrac)
                    | (es, r) => (c :: s :: es, r)
                  else
                    match takeDigits t with
                    | ([], _) => ([], afterFrac)
                    | (es, r) => (c :: es, r)
                | [] => ([], afterFrac)
              else ([], afterFrac)
            | [] => ([], afterFrac)
          match afterFrac with
          | c :: _ =>
            if (c = 'e' || c = 'E') && expPart = [] then none
            else some (⟨sign ++ ds ++ fracPart ++ expPart⟩, afterExp)
          | [] => some (⟨sign ++ ds ++ fracPart ++ expPart⟩, afterExp)
  match cs with
  | '-' :: t =>
    if "Infinity".data.isPrefixOf t then some ("-Infinity", t.drop 8)
    else core t ['-']
  | _ => core cs []

mutual

/-- Parse one JSON value (fuel-indexed; the fuel bounds recursion depth and
is chosen large enough for any input at the call site). -/
def parseVal (fuel : Nat) (cs : List Char) : Option (JVal × List Char) :=
  match fuel with
  | 0 => none
  | fuel' + 1 =>
    match cs with
    | [] => none
    | c :: rest =>
      if c = lbrace then
        let cs1 := skipWs rest
        match cs1 with
        | c1 :: rest1 =>
          if c1 = rbrace then some (.obj [], rest1)
          else parseMembers fuel' cs1 []
        | [] => none
      else if c = '[' then
        let cs1 := skipWs rest
        match cs1 with
        | ']' :: rest1 => some (.arr [], rest1)
        | _ => parseItems fuel' cs1 []
      else if c = '"' then
        match parseStringBody rest [] with
        | some (s, rest1) => some (.str s, rest1)
        | none => none
      else if c = 't' then
        if "rue".data.isPrefixOf rest then some (.bool true, rest.drop 3)
        else none
      else if c = 'f' then
        if "alse".data.isPrefixOf rest then some (.bool false, rest.drop 4)
        else none
      else if c = 'n' then
        if "ull".data.isPrefixOf rest then some (.null, rest.drop 3) else none
      else if c = 'N' then
        if "aN".data.isPrefixOf rest then some (.num "NaN", rest.drop 2)
        else none
      else if c = 'I' then
        if "nfinity".data.isPrefixOf rest then
          some (.num "Infinity", rest.drop 7)
        else none
      else
        match parseNumber cs with
        | some (lex, rest1) => some (.num lex, rest1)
        | none => none

/-- Parse the members of a JSON object after its opening brace. -/
def parseMembers (fuel : Nat) (cs : List Char)
    (acc : List (String × JVal)) : Option (JVal × List Char) :=
  match fuel with
  | 0 => none
  | fuel' + 1 =>
    match skipWs cs with
    | '"' :: rest =>
      match parseStringBody rest [] with
      | some (k, rest1) =>
        match skipWs rest1 with
        | ':' :: rest2 =>
          match parseVal fuel' (skipWs rest2) with
          | some (v, rest3) =>
            match skipWs rest3 with
            | ',' :: rest4 => parseMembers fuel' rest4 (acc ++ [(k, v)])
            | c :: rest4 =>
              if c = rbrace then some (.obj (acc ++ [(k, v)]), rest4)
              else none
            | [] => none
          | none => none
        | _ => none
      | none => none
    | _ => none

/-- Parse the items of a JSON array after its opening bracket. -/
def parseItems (fuel : Nat) (cs : List Char) (acc : List JVal) :
    Option (JVal × List Char) :=
  match fuel with
  | 0 => none
  | fuel' + 1 =>
    match parseVal fuel' cs with
    | some (v, rest) =>
      match skipWs rest with
      | ',' :: rest1 => parseItems fuel' (skipWs rest1) (acc ++ [v])
      | ']' :: rest1 => some (.arr (acc ++ [v]), rest1)
      | _ => none
    | none => none

end

/-- `json.loads`: parse the whole (whitespace-trimmed) input as one JSON
value; trailing data is an error. -/
def jsonLoads (s : String) : Option JVal :=
  match parseVal (2 * s.length + 8) (skipWs s.data) with
  | some (v, rest) => if (skipWs rest).isEmpty then some v else none
  | none => none

end SocTalk

namespace SocTalk

/-! ## Regex extraction steps of the LLM parsers

The two regexes are specialised by hand to their deterministic behaviour:

* `re.search(r"```json\s*(.*?)\s*```", text, re.DOTALL)` matches at the
  first occurrence of ```` ```json ```` that is followed (anywhere later) by
  ```` ``` ````; since backticks are not whitespace the greedy `\s*` never
  backtracks, and the lazy `(.*?)` stops at the first point from which
  whitespace followed by ```` ``` ```` completes the match.
* `re.search(r"\{(?:[^{}]|\{[^{}]*\})*\}", text, re.DOTALL)`: at each `{`
  the quantifier consumes single non-brace characters or complete one-level
  `{…}` groups; no unit it gives back can be followed by `}`, so the match
  at a given start succeeds exactly when that greedy run ends on `}`.
* `re.search(r"\{.*\}", text, re.DOTALL)` spans the first `{` to the last
  `}` after it. -/

/-- Whether ```` ``` ```` occurs anywhere in the characters. -/
def existsTicks (cs : List Char) : Bool :=
  listHasSub "```".data cs

/-- Find the first ```` ```json ```` with a later closing fence, returning
the characters after the opening fence. -/
def findFenced : List Char → Option (List Char)
  | [] => none
  | c :: t =>
    if "```json".data.isPrefixOf (c :: t) then
      let rest := (c :: t).drop 7
      if existsTicks rest then some rest else findFenced t
    else findFenced t

/-- The lazy group scan: the prefix of `body` up to the first position from
which (whitespace then) ```` ``` ```` completes the fenced match. -/
def groupScan : List Char → Option (List Char)
  | [] =>
    if "```".data.isPrefixOf ([] : List Char) then some [] else none
  | c :: t =>
    if "```".data.isPrefixOf ((c :: t).dropWhile isPyWs) then some []
    else (groupScan t).map (fun g => c :: g)

/-- `group(1)` of `re.search(r"```json\s*(.*?)\s*```", text, re.DOTALL)`. -/
def fencedJsonGroup (text : String) : Option String :=
  match findFenced text.data with
  | some rest => (groupScan (rest.dropWhile isPyWs)).map (fun g => ⟨g⟩)
  | none => none

/-- Consume `[^{}]*\}` (the inside of a one-level nested group), returning
the consumed span (closing brace included) and the remainder. -/
def braceInnerSpan : List Char → Option (List Char × List Char)
  | [] => none
  | c :: t =>
    if c = rbrace then some ([c], t)
    else if c = lbrace then none
    else (braceInnerSpan t).map (fun p => (c :: p.1, p.2))

/-- The greedy unit run of `(?:[^{}]|\{[^{}]*\})*\}` starting right after an
opening brace: returns the matched span (closing brace included) and the
remainder. -/
def braceMatchAt (fuel : Nat) (cs : List Char) :
    Option (List Char × List Char) :=
  match fuel with
  | 0 => none
  | fuel' + 1 =>
    match cs with
    | [] => none
    | c :: t =>
      if c = rbrace then some ([c], t)
      else if c = lbrace then
        match braceInnerSpan t with
        | some (span, rest) =>
          (braceMatchAt fuel' rest).map (fun p => (c :: span ++ p.1, p.2))
        | none => none
      else (braceMatchAt fuel' t).map (fun p => (c :: p.1, p.2))

/-- Scan for the leftmost match of the one-level-nested brace regex. -/
def findBraceMatch (fuel : Nat) : List Char → Option (List Char)
  | [] => none
  | c :: t =>
    if c = lbrace then
      match braceMatchAt fuel t with
      | some (m, _) => some (c :: m)
      | none => findBraceMatch fuel t
    else findBraceMatch fuel t

/-- `group(0)` of `re.search(r"\{(?:[^{}]|\{[^{}]*\})*\}", text,
re.DOTALL)` (the supervisor parser's raw-JSON regex). -/
def firstBraceMatch (text : String) : Option String :=
  (findBraceMatch (text.length + 1) text.data).map (fun m => ⟨m⟩)

/-- Drop characters up to the first opening brace. -/
def dropToBrace : List Char → Option (List Char)
  | [] => none
  | c :: t => if c = lbrace then some (c :: t) else dropToBrace t

/-- `group(0)` of `re.search(r"\{.*\}", text, re.DOTALL)` (the verdict
parser's raw-JSON regex): first `{` through the last `}` after it. -/
def greedyBraceMatch (text : String) : Option String :=
  match dropToBrace text.data with
  | some (c :: t) =>
    let dropped := (t.reverse).dropWhile (fun x => x ≠ rbrace)
    if dropped.isEmpty then none else some ⟨c :: dropped.reverse⟩
  | _ => none

end SocTalk

namespace SocTalk

/-! ## The parse pipelines and their fallbacks -/

/-- `_sanitize_json_string`'s character-state machine
(`in_string`/`escape_next`), escaping raw `\n`, `\r`, `\t` inside string
literals. -/
def sanitizeAux : List Char → Bool → Bool → List Char
  | [], _, _ => []
  | c :: rest, in_string, escape_next =>
    if escape_next then c :: sanitizeAux rest in_string false
    else if c = '\\' then c :: sanitizeAux rest in_string true
    else if c = '"' then c :: sanitizeAux rest (!in_string) false
    else if in_string && c = '\n' then
      '\\' :: 'n' :: sanitizeAux rest in_string false
    else if in_string && c = '\r' then
      '\\' :: 'r' :: sanitizeAux rest in_string false
    else if in_string && c = '\t' then
      '\\' :: 't' :: sanitizeAux rest in_string false
    else c :: sanitizeAux rest in_string false

/-- `_sanitize_json_string` (`src/soctalk/supervisor/node.py`). -/
def sanitizeJsonString (s : String) : String :=
  ⟨sanitizeAux s.data false false⟩

/-- Read a key from a parsed JSON object (Python dict: a later duplicate key
wins). -/
def resultGet (v : JVal) (key : String) : Option JVal :=
  match v with
  | .obj fields => (fields.reverse.find? (fun p => p.1 == key)).map (fun p => p.2)
  | _ => none

/-- The action keywords the supervisor parser's last resort scans for, in
loop order. -/
def supervisorActions : List String :=
  ["VERDICT", "CLOSE", "INVESTIGATE", "CONTEXTUALIZE", "ENRICH"]

/-- The last-resort result of `_parse_decision_response`: the default dict,
with `next_action` overridden by the first action keyword found in the
upper-cased response. -/
def supervisorFallback (text : String) : JVal :=
  let action :=
    (supervisorActions.find? (fun a => strHasSub (pyUpper text) a)).getD
      "ENRICH"
  .obj [("next_action", .str action),
        ("action_reasoning", .str "Failed to parse LLM response"),
        ("tp_confidence", .num "0.5"),
        ("confidence_reasoning", .str "Unable to determine"),
        ("specific_instructions", .str "")]

/-- Stage 3 of `_parse_decision_response`: the entire (sanitized) response,
then the last-resort fallback. -/
def parseDecisionStage3 (text : String) : JVal :=
  match jsonLoads (sanitizeJsonString text) with
  | some v => v
  | none => supervisorFallback text

/-- Stage 2 of `_parse_decision_response`: the first one-level-nested
`{…}` match, sanitized. -/
def parseDecisionStage2 (text : String) : JVal :=
  match firstBraceMatch text with
  | some g =>
    match jsonLoads (sanitizeJsonString g) with
    | some v => v
    | none => parseDecisionStage3 text
  | none => parseDecisionStage3 text

/-- `_parse_decision_response` (`src/soctalk/supervisor/node.py`): fenced
```` ```json ```` block, then raw `{…}` match, then the whole response,
each sanitized before `json.loads`; on total failure the default dict with
the keyword-extracted `next_action`. -/
def parseDecisionResponse (text : String) : JVal :=
  match fencedJsonGroup text with
  | some g =>
    match jsonLoads (sanitizeJsonString g) with
    | some v => v
    | none => parseDecisionStage2 text
  | none => parseDecisionStage2 text

/-- The last-resort result of `_parse_verdict_response`: the default dict,
with `decision` overridden by keyword scans of the lower-cased response. -/
def verdictFallback (text : String) : JVal :=
  let lower := pyLower text
  let decision :=
    if strHasSub lower "escalate" then "escalate"
    else if strHasSub lower "close" && strHasSub lower "false positive" then
      "close"
    else "needs_more_info"
  .obj [("decision", .str decision),
        ("confidence", .num "0.5"),
        ("threat_assessment", .str "Unable to parse verdict response"),
        ("evidence_strength", .str "weak"),
        ("potential_impact", .str "medium"),
        ("urgency", .str "routine"),
        ("key_evidence", .arr []),
        ("gaps_in_evidence", .arr [.str "Failed to parse LLM response"]),
        ("assumptions_made", .arr []),
        ("alternative_explanations", .arr []),
        ("recommendation",
          .str "Manual review required - verdict parsing failed")]

/-- Stage 3 of `_parse_verdict_response`: the entire response (no
sanitization in the verdict parser), then the last-resort fallback. -/
def parseVerdictStage3 (text : String) : JVal :=
  match jsonLoads text with
  | some v => v
  | none => verdictFallback text

/-- Stage 2 of `_parse_verdict_response`: the greedy `\{.*\}` match. -/
def parseVerdictStage2 (text : String) : JVal :=
  match greedyBraceMatch text with
  | some g =>
    match jsonLoads g with
    | some v => v
    | none => parseVerdictStage3 text
  | none => parseVerdictStage3 text

/-- `_parse_verdict_response` (`src/soctalk/supervisor/verdict.py`). -/
def parseVerdictResponse (text : String) : JVal :=
  match fencedJsonGroup text with
  | some g =>
    match jsonLoads g with
    | some v => v
    | none => parseVerdictStage2 text
  | none => parseVerdictStage2 text

end SocTalk

namespace SocTalk

/-! ## Concrete scenario inputs used by the verification -/

/-- C1 scenario: create (idempotency key `"inv-created-7"`), start, then a
replayed create with the same idempotency key. -/
def c1Calls : List AppendCall :=
  [ { aggregate_id := 7, event_type := "investigation.created",
      data := { title := some "Suspicious login burst",
                max_severity := some "low" },
      idempotency_key := some "inv-created-7", now := 100 },
    { aggregate_id := 7, event_type := "investigation.started", now := 110 },
    { aggregate_id := 7, event_type := "investigation.created",
      data := { title := some "Suspicious login burst",
                max_severity := some "low" },
      idempotency_key := some "inv-created-7", now := 120 } ]

/-- The database state after running the C1 scenario online. -/
def c1Final : SysState := runCalls emptySysState c1Calls

/-- A one-event store whose event carries idempotency key `"k1"`. -/
def c2Event : StoredEvent :=
  { id := 0, aggregate_id := 3, event_type := "investigation.created",
    version := 1, timestamp := 50, data := {}, idempotency_key := some "k1" }

/-- The event log holding just `c2Event`. -/
def c2Log : List StoredEvent := [c2Event]

/-- C5 scenario: the newer of two alerts sharing agent `web-01`. -/
def c5AlertA : Alert :=
  { id := "a1", timestamp := 72000, severity := .high,
    rule_description := "SSH brute force attempt detected",
    agent_name := "web-01" }

/-- C5 scenario: the older alert, 20 minutes before `c5AlertA`. -/
def c5AlertB : Alert :=
  { id := "a2", timestamp := 72000 - 1200, severity := .high,
    rule_description := "SSH brute force attempt detected",
    agent_name := "web-01" }

/-- C6 scenario: an `INVESTIGATION_CLOSED` event whose resolution contains
but does not start with "closed by AI verdict". -/
def c6Event : StoredEvent :=
  { id := 0, aggregate_id := 1, event_type := "investigation.closed",
    version := 3, timestamp := 500,
    data := { resolution := some "Investigation closed by AI verdict (benign)",
              verdict_decision := some "close" } }

/-- C6 scenario: the prior investigation row (no TheHive case). -/
def c6Row : InvRow := { id := 1, created_at := 0, updated_at := 0 }

/-- C8 scenario: an `ALERT_CORRELATED` event with severity `high`. -/
def c8AlertEvent : StoredEvent :=
  { id := 0, aggregate_id := 2, event_type := "alert.correlated",
    version := 1, timestamp := 10, data := { severity := some "high" } }

/-- C8 scenario: a later `INVESTIGATION_CREATED` event carrying
`max_severity = "low"`. -/
def c8CreatedEvent : StoredEvent :=
  { id := 1, aggregate_id := 2, event_type := "investigation.created",
    version := 2, timestamp := 20, data := { max_severity := some "low" } }

/-- C10 scenario: an investigation to enqueue. -/
def c10Inv : Investigation := { id := "i1", title := "T1" }

/-- C10 scenario: a queue that has already seen `c10Inv`'s id. -/
def c10Queue : QueueState := { seen_ids := ["i1"] }

end SocTalk

namespace SocTalk

/-! ## Claim-side (specification-worded) definitions -/

/-- The final-status cascade exactly as claim C6 words it (amended form:
"contains" for the auto-close wording), as a function of the closing
event's payload and the prior row. -/
def closedFinalStatusSpec (data : EventData) (prior : InvRow) : String :=
  if optStrTruthy data.thehive_case_id || optStrTruthy prior.thehive_case_id
  then "escalated"
  else if strHasSub (pyLower (data.resolution.getD "")) "rejected" then
    "rejected"
  else if pyLower (data.verdict_decision.getD "") = "close" &&
      strHasSub (pyLower (data.resolution.getD "")) "closed by ai verdict" then
    "auto_closed"
  else "closed"

/-- The final-status cascade exactly as claim C6 originally words it, with
"resolution starting with" for the auto-close branch. -/
def closedFinalStatusClaim (data : EventData) (prior : InvRow) : String :=
  if optStrTruthy data.thehive_case_id || optStrTruthy prior.thehive_case_id
  then "escalated"
  else if strHasSub (pyLower (data.resolution.getD "")) "rejected" then
    "rejected"
  else if pyLower (data.verdict_decision.getD "") = "close" &&
      strStartsWith (pyLower (data.resolution.getD "")) "closed by ai verdict"
  then "auto_closed"
  else "closed"

end SocTalk

namespace SocTalk

/-! ## Supporting lemmas -/

/-- The fold underlying `getLatestVersion` is at least its initial value. -/
theorem init_le_foldl_max (l : List StoredEvent) (init : Nat) :
    init ≤ l.foldl (fun m e => max m e.version) init := by
  induction l generalizing init with
  | nil => exact Nat.le_refl _
  | cons a t ih =>
    calc init ≤ max init a.version := Nat.le_max_left _ _
    _ ≤ t.foldl (fun m e => max m e.version) (max init a.version) := ih _

/-- Every element's version is bounded by the fold of `max` over versions. -/
theorem version_le_foldl_max (l : List StoredEvent) (init : Nat)
    (e : StoredEvent) (he : e ∈ l) :
    e.version ≤ l.foldl (fun m e => max m e.version) init := by
  induction l generalizing init with
  | nil => cases he
  | cons a t ih =>
    cases he with
    | head =>
      calc e.version ≤ max init e.version := Nat.le_max_right _ _
      _ ≤ t.foldl (fun m e => max m e.version) (max init e.version) :=
        init_le_foldl_max t _
    | tail _ hmem => exact ih _ hmem

/-- A stored event of the aggregate never has a version above
`getLatestVersion`. -/
theorem version_le_getLatestVersion (log : List StoredEvent)
    (aggregate_id : Nat) (e : StoredEvent) (he : e ∈ log)
    (ha : e.aggregate_id = aggregate_id) :
    e.version ≤ getLatestVersion log aggregate_id := by
  unfold getLatestVersion
  apply version_le_foldl_max
  simp [List.mem_filter, he, ha]

end SocTalk

namespace SocTalk

/-! ## Claim C1 -/

/-- **C1** (code bug).  The claim — replaying `get_events(aggregate_id)`
through the projector from a blank read model reproduces the online-built
investigation row — fails on the code: `ProjectingEventStore.append`
projects whatever `EventStore.append` returns, including the already-stored
event answered on an idempotency-key hit, so a replayed
`INVESTIGATION_CREATED` (same `"inv-created-7"` key) is projected a second
time online.  After create → start → duplicate create, the online row's
status has been reset to `"pending"`, while replaying the two stored events
yields `"in_progress"`. -/
theorem c1_replay_divergence_on_idempotent_hit :
    (rowsLookup c1Final.rows 7).map (fun r => r.status) = some "pending"
    ∧ (replayRow c1Final.log 7 999).map (fun r => r.status) =
        some "in_progress"
    ∧ c1Final.log.length = 2
    ∧ ("pending" : String) ≠ "in_progress" := by
  refine ⟨by decide, by decide, by decide, by decide⟩

end SocTalk

namespace SocTalk

/-! ## Claim C2 -/

/-- **C2 counterexample.**  A call to `EventStore.append` whose
`idempotency_key` (`"k1"`) is already stored does *not* return the stored
event when `expected_version` is given and stale: the optimistic-concurrency
check runs first and raises `ConcurrencyError(expected=0, actual=1)`. -/
theorem c2_idempotent_append_counterexample :
    getByIdempotencyKey c2Log "k1" = some c2Event
    ∧ append c2Log 3 "investigation.created" {} "Investigation"
        (some 0) (some "k1") 60 =
      .error (.concurrency 3 0 1) := by
  refine ⟨by decide, rfl⟩

/-- **C2** (amended).  If a non-empty `idempotency_key` is already stored
and `expected_version` is absent or equals the aggregate's current latest
version, `append` returns the stored event unchanged and the set of stored
events does not change. -/
theorem c2_idempotent_append_returns_existing
    (log : List StoredEvent) (aggregate_id : Nat) (event_type : String)
    (data : EventData) (aggregate_type : String)
    (expected_version : Option Nat) (key : String) (now : Int)
    (e : StoredEvent)
    (hk : getByIdempotencyKey log key = some e)
    (hne : key ≠ "")
    (hev : expected_version = none ∨
      expected_version = some (getLatestVersion log aggregate_id)) :
    append log aggregate_id event_type data aggregate_type
      expected_version (some key) now = .ok (e, log) := by
  cases hev with
  | inl h =>
    subst h
    simp [append, appendAfterVersionCheck, hne, hk]
  | inr h =>
    subst h
    simp [append, appendAfterVersionCheck, hne, hk]

/-- Witness for C2 at the concrete one-event store. -/
theorem c2_idempotent_append_returns_existing_witness :
    append c2Log 3 "investigation.created" {} "Investigation"
      none (some "k1") 60 = .ok (c2Event, c2Log) :=
  c2_idempotent_append_returns_existing c2Log 3 "investigation.created"
    {} "Investigation" none "k1" 60 c2Event (by decide) (by decide)
    (Or.inl rfl)

end SocTalk

namespace SocTalk

/-! ## Claim C3 -/

/-- **C3 counterexample.**  With the current latest version `v = 1` and
`expected_version = 1`, `append` can succeed *without* assigning version
`v + 1`: when the idempotency key is already stored it returns the stored
version-1 event and inserts nothing. -/
theorem c3_expected_version_counterexample :
    getLatestVersion c2Log 3 = 1
    ∧ append c2Log 3 "investigation.created" {} "Investigation"
        (some 1) (some "k1") 60 = .ok (c2Event, c2Log)
    ∧ c2Event.version ≠ getLatestVersion c2Log 3 + 1 := by
  refine ⟨by decide, rfl, by decide⟩

/-- **C3** (amended).  For `append` with `expected_version = exp` on an
aggregate whose latest version is `v`:
* if `exp ≠ v` the call raises `ConcurrencyError(exp, v)` (so nothing is
  inserted — the state is not returned);
* if `exp = v` and a non-empty idempotency key is already stored, the
  stored event is returned unchanged and nothing is inserted;
* if `exp = v` and the idempotency key is absent or not stored at all, a
  fresh event with version `v + 1` is appended. -/
theorem c3_expected_version_semantics
    (log : List StoredEvent) (aggregate_id : Nat) (event_type : String)
    (data : EventData) (aggregate_type : String)
    (idempotency_key : Option String) (now : Int) (exp : Nat) :
    (exp ≠ getLatestVersion log aggregate_id →
      append log aggregate_id event_type data aggregate_type
        (some exp) idempotency_key now =
      .error (.concurrency aggregate_id exp
        (getLatestVersion log aggregate_id)))
    ∧ (∀ s e, exp = getLatestVersion log aggregate_id →
        idempotency_key = some s → s ≠ "" →
        getByIdempotencyKey log s = some e →
        append log aggregate_id event_type data aggregate_type
          (some exp) idempotency_key now = .ok (e, log))
    ∧ (exp = getLatestVersion log aggregate_id →
        (∀ s, idempotency_key = some s →
          getByIdempotencyKey log s = none) →
        append log aggregate_id event_type data aggregate_type
          (some exp) idempotency_key now =
        .ok ({ id := log.length, aggregate_id := aggregate_id,
               aggregate_type := aggregate_type, event_type := event_type,
               version := getLatestVersion log aggregate_id + 1,
               timestamp := now, data := data,
               idempotency_key := idempotency_key },
             log ++
               [{ id := log.length, aggregate_id := aggregate_id,
                  aggregate_type := aggregate_type,
                  event_type := event_type,
                  version := getLatestVersion log aggregate_id + 1,
                  timestamp := now, data := data,
                  idempotency_key := idempotency_key }])) := by
  have hclash : (log.any (fun e => e.aggregate_id == aggregate_id &&
      e.version == getLatestVersion log aggregate_id + 1)) = false := by
    rw [List.any_eq_false]
    intro e he hcontra
    simp only [Bool.and_eq_true, beq_iff_eq] at hcontra
    have hle := version_le_getLatestVersion log aggregate_id e he hcontra.1
    omega
  have hversionNone :
      insertEvent log aggregate_id event_type data aggregate_type none now
        (getLatestVersion log aggregate_id + 1) =
      .ok ({ id := log.length, aggregate_id := aggregate_id,
             aggregate_type := aggregate_type, event_type := event_type,
             version := getLatestVersion log aggregate_id + 1,
             timestamp := now, data := data, idempotency_key := none },
           log ++
             [{ id := log.length, aggregate_id := aggregate_id,
                aggregate_type := aggregate_type,
                event_type := event_type,
                version := getLatestVersion log aggregate_id + 1,
                timestamp := now, data := data,
                idempotency_key := none }]) := by
    unfold insertEvent
    rw [hclash]
    simp
  have hversionSome : ∀ s : String,
      (log.any (fun e => e.idempotency_key == some s)) = false →
      insertEvent log aggregate_id event_type data aggregate_type (some s)
        now (getLatestVersion log aggregate_id + 1) =
      .ok ({ id := log.length, aggregate_id := aggregate_id,
             aggregate_type := aggregate_type, event_type := event_type,
             version := getLatestVersion log aggregate_id + 1,
             timestamp := now, data := data, idempotency_key := some s },
           log ++
             [{ id := log.length, aggregate_id := aggregate_id,
                aggregate_type := aggregate_type,
                event_type := event_type,
                version := getLatestVersion log aggregate_id + 1,
                timestamp := now, data := data,
                idempotency_key := some s }]) := by
    intro s hs
    unfold insertEvent
    rw [hclash]
    simp [hs]
  refine ⟨?_, ?_, ?_⟩
  · intro hne
    unfold append
    simp [Ne.symm hne]
  · intro s e hexp hkey hs hfound
    subst hexp; subst hkey
    simp [append, appendAfterVersionCheck, hs, hfound]
  · intro hexp hnone
    subst hexp
    have hany : ∀ s, idempotency_key = some s →
        (log.any (fun e => e.idempotency_key == some s)) = false := by
      intro s hk
      rw [List.any_eq_false]
      intro e he hcontra
      have hiskey : e.idempotency_key = some s := by
        simpa using hcontra
      have hfind := hnone s hk
      unfold getByIdempotencyKey at hfind
      rw [List.find?_eq_none] at hfind
      exact hfind e he (by simp [hiskey])
    cases hkey : idempotency_key with
    | none =>
      have hred : append log aggregate_id event_type data aggregate_type
          (some (getLatestVersion log aggregate_id)) none now =
          insertEvent log aggregate_id event_type data aggregate_type none
            now (getLatestVersion log aggregate_id + 1) := by
        unfold append appendAfterVersionCheck
        simp
      rw [hred, hversionNone]
    | some s =>
      have hfound := hnone s hkey
      have hany' := hany s hkey
      by_cases hs : s = ""
      · subst hs
        have hred : append log aggregate_id event_type data aggregate_type
            (some (getLatestVersion log aggregate_id)) (some "") now =
            insertEvent log aggregate_id event_type data aggregate_type
              (some "") now (getLatestVersion log aggregate_id + 1) := by
          unfold append appendAfterVersionCheck
          simp
        rw [hred, hversionSome "" hany']
      · have hred : append log aggregate_id event_type data aggregate_type
            (some (getLatestVersion log aggregate_id)) (some s) now =
            insertEvent log aggregate_id event_type data aggregate_type
              (some s) now (getLatestVersion log aggregate_id + 1) := by
          unfold append appendAfterVersionCheck
          simp [hs, hfound]
        rw [hred, hversionSome s hany']

/-- Witness for C3: both the stale-version rejection and the fresh insert,
at concrete inputs. -/
theorem c3_expected_version_semantics_witness :
    append c2Log 3 "investigation.started" {} "Investigation"
      (some 0) none 60 = .error (.concurrency 3 0 1)
    ∧ append c2Log 3 "investigation.started" {} "Investigation"
        (some 1) none 60 =
      .ok ({ id := 1, aggregate_id := 3,
             aggregate_type := "Investigation",
             event_type := "investigation.started", version := 2,
             timestamp := 60, data := {}, idempotency_key := none },
           c2Log ++
             [{ id := 1, aggregate_id := 3,
                aggregate_type := "Investigation",
                event_type := "investigation.started", version := 2,
                timestamp := 60, data := {}, idempotency_key := none }]) := by
  constructor
  · exact (c3_expected_version_semantics c2Log 3 "investigation.started"
      {} "Investigation" none 60 0).1 (by decide)
  · have h := (c3_expected_version_semantics c2Log 3 "investigation.started"
      {} "Investigation" none 60 1).2.2 (by decide)
      (fun s hs => by cases hs)
    have hv : getLatestVersion c2Log 3 = 1 := by decide
    rw [hv] at h
    exact h

end SocTalk

namespace SocTalk

/-! ## Claim C4 -/

/-- **C4** (confirmed).  On the non-interactive resume path of the
human-review node, a resume payload carrying `source = "dashboard"` never
leads to a `HUMAN_DECISION_RECEIVED` emission from the node; and the
outcome's emission flag is cleared exactly for the dashboard/UI sources, so
the node emits the decision event only for non-dashboard (chat-originated)
decisions. -/
theorem c4_dashboard_decision_not_reemitted
    (hasEmitter hasInvId alreadyRequested : Bool) (payload : ResumePayload)
    (hsource : payload.source = some "dashboard") :
    "human.decision_received" ∉
      humanReviewNodeEmits hasEmitter hasInvId alreadyRequested payload
    ∧ ((handleNoninteractiveResume payload).emit_event = false ↔
        (payload.source = some "dashboard" ∨ payload.source = some "ui")) := by
  constructor
  · unfold humanReviewNodeEmits handleNoninteractiveResume
    rw [hsource]
    cases hasEmitter <;> cases hasInvId <;> cases alreadyRequested <;> simp
  · unfold handleNoninteractiveResume
    rw [hsource]
    simp

/-- Witness for C4: a concrete dashboard-sourced approve payload. -/
theorem c4_dashboard_decision_not_reemitted_witness :
    "human.decision_received" ∉
      humanReviewNodeEmits true true true
        { decision := some "approve", reviewer := some "analyst",
          source := some "dashboard" } :=
  (c4_dashboard_decision_not_reemitted true true true
    { decision := some "approve", reviewer := some "analyst",
      source := some "dashboard" } rfl).1

end SocTalk

namespace SocTalk

/-! ## Claim C7 -/

/-- **C7** (confirmed).  `route_from_verdict`: with decision
`needs_more_info` (including when the verdict or its decision is absent,
since the source defaults the decision to `needs_more_info`), the route is
`supervisor` for `verdict_retry_count < 2` and `human_review` for
`verdict_retry_count ≥ 2`; decision `escalate` always routes to
`human_review`, and decision `close` always routes to the close node. -/
theorem c7_route_from_verdict_retry_cap (state : GraphState) :
    (((state.verdict.getD {}).decision.getD "needs_more_info") =
        "needs_more_info" →
      (state.verdict_retry_count.getD 0 < 2 →
        routeFromVerdict state = "supervisor")
      ∧ (2 ≤ state.verdict_retry_count.getD 0 →
        routeFromVerdict state = "human_review"))
    ∧ (((state.verdict.getD {}).decision.getD "needs_more_info") =
        "escalate" → routeFromVerdict state = "human_review")
    ∧ (((state.verdict.getD {}).decision.getD "needs_more_info") =
        "close" → routeFromVerdict state = "close_investigation") := by
  refine ⟨fun h => ⟨fun hlt => ?_, fun hge => ?_⟩, fun h => ?_, fun h => ?_⟩
  · have hnot : ¬ (2 ≤ state.verdict_retry_count.getD 0) := by omega
    simp [routeFromVerdict, h, hnot]
  · simp [routeFromVerdict, h, hge]
  · simp [routeFromVerdict, h]
  · simp [routeFromVerdict, h]

/-- Witness for C7: the three routes at concrete states (verdict retries 2,
retries 1, escalate, close). -/
theorem c7_route_from_verdict_retry_cap_witness :
    routeFromVerdict { verdict := some { decision := some "needs_more_info" },
                       verdict_retry_count := some 2 } = "human_review"
    ∧ routeFromVerdict { verdict := some { decision := some "needs_more_info" },
                         verdict_retry_count := some 1 } = "supervisor"
    ∧ routeFromVerdict { verdict := some { decision := some "escalate" },
                         verdict_retry_count := none } = "human_review"
    ∧ routeFromVerdict { verdict := some { decision := some "close" },
                         verdict_retry_count := none } =
        "close_investigation" := by
  refine ⟨?_, ?_, ?_, ?_⟩
  · exact ((c7_route_from_verdict_retry_cap
      { verdict := some { decision := some "needs_more_info" },
        verdict_retry_count := some 2 }).1 rfl).2 (by decide)
  · exact ((c7_route_from_verdict_retry_cap
      { verdict := some { decision := some "needs_more_info" },
        verdict_retry_count := some 1 }).1 rfl).1 (by decide)
  · exact (c7_route_from_verdict_retry_cap
      { verdict := some { decision := some "escalate" },
        verdict_retry_count := none }).2.1 rfl
  · exact (c7_route_from_verdict_retry_cap
      { verdict := some { decision := some "close" },
        verdict_retry_count := none }).2.2 rfl

end SocTalk

namespace SocTalk

/-! ## Claim C6 -/

/-- The status written by `_project_investigation_closed` equals the
specification cascade (with substring containment in the auto-close
branch). -/
theorem projectInvestigationClosed_status (e : StoredEvent) (inv : InvRow) :
    (projectInvestigationClosed e inv).status =
      closedFinalStatusSpec e.data inv := by
  unfold projectInvestigationClosed closedFinalStatusSpec
  by_cases h4 : pyLower (e.data.verdict_decision.getD "") = "" <;>
  by_cases h1 : optStrTruthy e.data.thehive_case_id = true <;>
  by_cases h2 : optStrTruthy inv.thehive_case_id = true <;>
  by_cases h3 : strHasSub (pyLower (e.data.resolution.getD ""))
    "rejected" = true <;>
  by_cases h6 : pyLower (e.data.verdict_decision.getD "") = "close" <;>
  by_cases h5 : strHasSub (pyLower (e.data.resolution.getD ""))
    "closed by ai verdict" = true <;>
  first
    | (simp_all; done)
    | (simp_all; split <;> rfl)

/-- **C6** (amended).  Projecting an `INVESTIGATION_CLOSED` event onto any
read-model state yields the final status derived by the cascade:
`thehive_case_id` present (in payload or row) → `escalated`; otherwise
resolution containing "rejected" → `rejected`; otherwise `verdict_decision
= close` and resolution *containing* (case-insensitively) "closed by AI
verdict" → `auto_closed`; otherwise `closed`. -/
theorem c6_closed_final_status_derivation (e : StoredEvent) (wallNow : Int)
    (row : Option InvRow) (he : e.event_type = "investigation.closed") :
    (projectInv e wallNow row).map (fun r => r.status) =
      some (closedFinalStatusSpec e.data
        (getOrCreateInvestigation e.aggregate_id wallNow row)) := by
  unfold projectInv
  rw [he]
  simp only [if_neg (by decide : ¬("investigation.closed" =
      "investigation.created")),
    if_neg (by decide : ¬("investigation.closed" = "investigation.started")),
    if_neg (by decide : ¬("investigation.closed" = "investigation.paused")),
    if_neg (by decide : ¬("investigation.closed" = "investigation.resumed")),
    if_neg (by decide : ¬("investigation.closed" =
      "investigation.cancelled")),
    if_neg (by decide : ¬("investigation.closed" = "alert.correlated")),
    if_neg (by decide : ¬("investigation.closed" = "observable.extracted")),
    if_neg (by decide : ¬("investigation.closed" = "enrichment.completed")),
    if_neg (by decide : ¬("investigation.closed" = "verdict.rendered")),
    if_neg (by decide : ¬("investigation.closed" =
      "investigation.escalated")),
    if_neg (by decide : ¬("investigation.closed" =
      "investigation.auto_closed")),
    if_pos (rfl : "investigation.closed" = "investigation.closed"),
    Option.map_some]
  simp only [if_pos trivial, Option.map_some']
  rw [projectInvestigationClosed_status]

/-- **C6 counterexample.**  The claim's original wording ("resolution
starting with") disagrees with the code on a resolution that contains but
does not start with the marker: the code derives `auto_closed`, the claimed
cascade `closed`. -/
theorem c6_closed_final_status_counterexample :
    (projectInv c6Event 600 (some c6Row)).map (fun r => r.status) =
      some "auto_closed"
    ∧ closedFinalStatusClaim c6Event.data c6Row = "closed"
    ∧ ("auto_closed" : String) ≠ "closed" := by
  refine ⟨by decide, by decide, by decide⟩

/-- Witness for C6 at the concrete closing event. -/
theorem c6_closed_final_status_derivation_witness :
    (projectInv c6Event 600 (some c6Row)).map (fun r => r.status) =
      some (closedFinalStatusSpec c6Event.data
        (getOrCreateInvestigation c6Event.aggregate_id 600 (some c6Row))) :=
  c6_closed_final_status_derivation c6Event 600 (some c6Row) rfl

end SocTalk

namespace SocTalk

/-! ## Claim C8 -/

/-- A positive `_compare_severity` result means a strictly higher rank. -/
theorem compareSeverity_pos (a b : String)
    (h : compareSeverity a b > 0) : severityRank b < severityRank a := by
  unfold compareSeverity at h
  by_cases h1 : severityRank a < severityRank b
  · rw [if_pos h1] at h
    omega
  · rw [if_neg h1] at h
    by_cases h2 : severityRank a > severityRank b
    · exact h2
    · rw [if_neg h2] at h
      omega

/-- **C8** (amended).  Projecting an `ALERT_CORRELATED` event — whatever
severity string its payload carries — never replaces `max_severity` with a
strictly lower-ranked severity: the row's severity rank is monotone
non-decreasing across `ALERT_CORRELATED` projection steps.  (The
restriction to `ALERT_CORRELATED` is forced: `INVESTIGATION_CREATED`
overwrites `max_severity` from its payload, see the counterexample.) -/
theorem c8_alert_correlated_severity_monotone
    (e : StoredEvent) (wallNow : Int) (r : InvRow) (m : String)
    (he : e.event_type = "alert.correlated")
    (hm : r.max_severity = some m) :
    ∃ r', projectInv e wallNow (some r) = some r'
      ∧ ∃ m', r'.max_severity = some m'
          ∧ severityRank m ≤ severityRank m' := by
  unfold projectInv
  rw [he]
  simp only [if_neg (by decide : ¬("alert.correlated" =
      "investigation.created")),
    if_neg (by decide : ¬("alert.correlated" = "investigation.started")),
    if_neg (by decide : ¬("alert.correlated" = "investigation.paused")),
    if_neg (by decide : ¬("alert.correlated" = "investigation.resumed")),
    if_neg (by decide : ¬("alert.correlated" = "investigation.cancelled")),
    if_pos (rfl : "alert.correlated" = "alert.correlated")]
  refine ⟨_, rfl, ?_⟩
  show ∃ m', (projectAlertCorrelated e r).max_severity = some m'
    ∧ severityRank m ≤ severityRank m'
  unfold projectAlertCorrelated
  cases hsev : e.data.severity with
  | none => exact ⟨m, by simp [hm], Nat.le_refl _⟩
  | some sev =>
    by_cases hs : sev = ""
    · subst hs
      simp only [ne_eq, not_true_eq_false, if_false]
      exact ⟨m, by simp [hm], Nat.le_refl _⟩
    · simp only [ne_eq, hs, not_false_eq_true, if_true, hm]
      by_cases hc : compareSeverity sev m > 0
      · rw [if_pos hc]
        exact ⟨sev, by simp, Nat.le_of_lt (compareSeverity_pos sev m hc)⟩
      · rw [if_neg hc]
        exact ⟨m, by simp, Nat.le_refl _⟩

/-- **C8 counterexample.**  Across a full event sequence the claim fails:
after an `ALERT_CORRELATED` with severity `high`, projecting an
`INVESTIGATION_CREATED` event carrying `max_severity = "low"` overwrites
the row's severity downwards — a projection step that replaces
`max_severity` with a strictly lower severity. -/
theorem c8_severity_monotone_counterexample :
    (projectInv c8AlertEvent 0 none).map (fun r => r.max_severity) =
      some (some "high")
    ∧ (projectInv c8CreatedEvent 0 (projectInv c8AlertEvent 0 none)).map
        (fun r => r.max_severity) = some (some "low")
    ∧ severityRank "low" < severityRank "high" := by
  refine ⟨by decide, by decide, by decide⟩

/-- Witness for C8: an `ALERT_CORRELATED` event with a lower severity than
the row's current maximum leaves the maximum in place. -/
theorem c8_alert_correlated_severity_monotone_witness :
    ∃ r', projectInv
        { id := 5, aggregate_id := 2, event_type := "alert.correlated",
          version := 3, timestamp := 30,
          data := { severity := some "low" } } 0
        (some { id := 2, created_at := 0, updated_at := 0,
                max_severity := some "high" }) = some r'
      ∧ ∃ m', r'.max_severity = some m'
          ∧ severityRank "high" ≤ severityRank m' :=
  c8_alert_correlated_severity_monotone
    { id := 5, aggregate_id := 2, event_type := "alert.correlated",
      version := 3, timestamp := 30, data := { severity := some "low" } }
    0
    { id := 2, created_at := 0, updated_at := 0,
      max_severity := some "high" }
    "high" rfl rfl

end SocTalk

namespace SocTalk

/-! ## Claim C10 -/

/-- **C10** (confirmed).  Every rejected `InvestigationQueue.add` call
returns `False` and leaves the whole queue state (heap, `seen_ids`,
`title_block_until`) unchanged; and each of the three rejection reasons —
duplicate id, time-blocked non-empty title, full heap — forces exactly that
rejected result. -/
theorem c10_queue_add_rejection_preserves_state
    (q : QueueState) (inv : Investigation) (now : Int) :
    ((queueAdd q inv now).1 = false → (queueAdd q inv now).2 = q)
    ∧ (q.seen_ids.contains inv.id = true → queueAdd q inv now = (false, q))
    ∧ (∀ block_until, inv.title ≠ "" →
        titleBlockLookup q.title_block_until inv.title = some block_until →
        now < block_until → queueAdd q inv now = (false, q))
    ∧ (q.max_size ≤ q.heap.size → queueAdd q inv now = (false, q)) := by
  refine ⟨?_, ?_, ?_, ?_⟩
  · intro hfalse
    unfold queueAdd at hfalse ⊢
    by_cases hid : q.seen_ids.contains inv.id = true
    · rw [if_pos hid]
    · rw [if_neg hid] at hfalse ⊢
      by_cases hblock : titleBlocked q inv.title now = true
      · rw [if_pos hblock]
      · rw [if_neg hblock] at hfalse ⊢
        unfold queueAddAccept at hfalse ⊢
        by_cases hsize : q.heap.size ≥ q.max_size
        · rw [if_pos hsize]
        · rw [if_neg hsize] at hfalse
          simp at hfalse
  · intro hid
    unfold queueAdd
    rw [if_pos hid]
  · intro block_until htitle hlookup hnow
    unfold queueAdd
    by_cases hid : q.seen_ids.contains inv.id = true
    · rw [if_pos hid]
    · rw [if_neg hid]
      have hcond : titleBlocked q inv.title now = true := by
        unfold titleBlocked
        rw [hlookup]
        simp [htitle, hnow]
      rw [if_pos hcond]
  · intro hsize
    unfold queueAdd
    by_cases hid : q.seen_ids.contains inv.id = true
    · rw [if_pos hid]
    · rw [if_neg hid]
      by_cases hblock : titleBlocked q inv.title now = true
      · rw [if_pos hblock]
      · rw [if_neg hblock]
        unfold queueAddAccept
        rw [if_pos hsize]

/-- Witness for C10: the duplicate-id rejection at a concrete queue. -/
theorem c10_queue_add_rejection_preserves_state_witness :
    queueAdd c10Queue c10Inv 0 = (false, c10Queue) :=
  (c10_queue_add_rejection_preserves_state c10Queue c10Inv 0).2.1 rfl

end SocTalk

namespace SocTalk

/-! ## Claim C5 -/

/-- The newer of the two scenario alerts, at timestamp `t`. -/
def c5NewAlert (t : Int) : Alert :=
  { id := "a1", timestamp := t, severity := .high,
    rule_description := "SSH brute force attempt detected",
    agent_name := "web-01" }

/-- The older scenario alert, 20 minutes (1200 s) before `t`. -/
def c5OldAlert (t : Int) : Alert :=
  { id := "a2", timestamp := t - 1200, severity := .high,
    rule_description := "SSH brute force attempt detected",
    agent_name := "web-01" }

/-- **C5** (amended).  Two alerts sharing agent `web-01`, timestamps `t`
and `t − 20 min`, under a 15-minute window: `correlate` returns a *single*
investigation containing exactly the newer alert — the older alert falls
outside the bucket's window filter and is dropped, not split into its own
investigation. -/
theorem c5_correlation_window_drops_old_alert (t : Int) :
    correlate 15 [c5NewAlert t, c5OldAlert t] =
      [{ id := "", title := "SSH brute force attempt detected",
         alerts := [c5NewAlert t], observables := [] }] := by
  have hgt : ¬ (t - 1200 > t) := by omega
  have hin : t - 15 * 60 ≤ t := by omega
  have hout : ¬ (t - 15 * 60 ≤ t - 1200) := by omega
  have hin2 : t ≤ t + 900 := by omega
  have hout2 : ¬ (t ≤ t - 1200 + 900) := by omega
  simp [correlate, bucketAlerts, getCorrelationKeys, extractRuleGroups,
    groupPatterns, strHasSub, listHasSub, bucketsAdd,
    mergeOverlappingGroups, dedupStep, filterByTimeWindow, mostRecentAux,
    createInvestigation, addAlert, generateTitle, genericDescriptions,
    pyStrip, pyLower, pyLowerChar, isPyStripWs, pyTake,
    sortInvestigations, insertBySeverity, maxSeverity, maxBySeverity,
    invSeverityOrder, corrSeverityOrder, c5NewAlert, c5OldAlert,
    hgt, hin, hout, hin2, hout2]

/-- **C5 counterexample.**  At the scenario's concrete inputs the claim's
expectation of two one-alert investigations fails: `correlate` returns one
investigation, holding only the newer alert. -/
theorem c5_correlation_window_counterexample :
    (correlate 15 [c5AlertA, c5AlertB]).length = 1
    ∧ (correlate 15 [c5AlertA, c5AlertB]).map (fun i => i.alerts) =
        [[c5AlertA]]
    ∧ (1 : Nat) ≠ 2 := by
  refine ⟨by decide, by decide, by decide⟩

end SocTalk

namespace SocTalk

/-! ## Claim C9 -/

/-- **C9** (amended).  When all three JSON extraction attempts fail —
fenced ```` ```json ```` block, raw `{…}` match, entire response — each
parser returns its last-resort default dict, but with a keyword scan
overriding the headline field: the supervisor's `next_action` becomes the
first of VERDICT/CLOSE/INVESTIGATE/CONTEXTUALIZE/ENRICH found in the
upper-cased response (`ENRICH` if none occurs), and the verdict's
`decision` becomes `escalate` if "escalate" occurs in the lower-cased
response, `close` if both "close" and "false positive" occur, and
`needs_more_info` otherwise. -/
theorem c9_parse_total_failure_fallback (t u : String)
    (h1 : ∀ g, fencedJsonGroup t = some g →
      jsonLoads (sanitizeJsonString g) = none)
    (h2 : ∀ g, firstBraceMatch t = some g →
      jsonLoads (sanitizeJsonString g) = none)
    (h3 : jsonLoads (sanitizeJsonString t) = none)
    (h4 : ∀ g, fencedJsonGroup u = some g → jsonLoads g = none)
    (h5 : ∀ g, greedyBraceMatch u = some g → jsonLoads g = none)
    (h6 : jsonLoads u = none) :
    parseDecisionResponse t = supervisorFallback t
    ∧ resultGet (parseDecisionResponse t) "next_action" =
        some (.str ((supervisorActions.find?
          (fun a => strHasSub (pyUpper t) a)).getD "ENRICH"))
    ∧ parseVerdictResponse u = verdictFallback u
    ∧ resultGet (parseVerdictResponse u) "decision" =
        some (.str (if strHasSub (pyLower u) "escalate" then "escalate"
          else if strHasSub (pyLower u) "close" &&
              strHasSub (pyLower u) "false positive" then "close"
          else "needs_more_info")) := by
  have e3 : parseDecisionStage3 t = supervisorFallback t := by
    unfold parseDecisionStage3
    rw [h3]
  have e2 : parseDecisionStage2 t = parseDecisionStage3 t := by
    unfold parseDecisionStage2
    cases hb : firstBraceMatch t with
    | none => rfl
    | some g =>
      show (match jsonLoads (sanitizeJsonString g) with
        | some v => v
        | none => parseDecisionStage3 t) = parseDecisionStage3 t
      rw [h2 g hb]
  have e1 : parseDecisionResponse t = parseDecisionStage2 t := by
    unfold parseDecisionResponse
    cases hf : fencedJsonGroup t with
    | none => rfl
    | some g =>
      show (match jsonLoads (sanitizeJsonString g) with
        | some v => v
        | none => parseDecisionStage2 t) = parseDecisionStage2 t
      rw [h1 g hf]
  have esup : parseDecisionResponse t = supervisorFallback t := by
    rw [e1, e2, e3]
  have f3 : parseVerdictStage3 u = verdictFallback u := by
    unfold parseVerdictStage3
    rw [h6]
  have f2 : parseVerdictStage2 u = parseVerdictStage3 u := by
    unfold parseVerdictStage2
    cases hb : greedyBraceMatch u with
    | none => rfl
    | some g =>
      show (match jsonLoads g with
        | some v => v
        | none => parseVerdictStage3 u) = parseVerdictStage3 u
      rw [h5 g hb]
  have f1 : parseVerdictResponse u = parseVerdictStage2 u := by
    unfold parseVerdictResponse
    cases hf : fencedJsonGroup u with
    | none => rfl
    | some g =>
      show (match jsonLoads g with
        | some v => v
        | none => parseVerdictStage2 u) = parseVerdictStage2 u
      rw [h4 g hf]
  have ever : parseVerdictResponse u = verdictFallback u := by
    rw [f1, f2, f3]
  refine ⟨esup, ?_, ever, ?_⟩
  · rw [esup]
    simp [supervisorFallback, resultGet]
  · rw [ever]
    simp [verdictFallback, resultGet]

/-- **C9 counterexample.**  `"please CLOSE"` defeats all three extraction
attempts, yet the supervisor parser does not return the safe default
`next_action = "ENRICH"`: the last-resort keyword scan sets
`next_action = "CLOSE"`. -/
theorem c9_parse_total_failure_counterexample :
    fencedJsonGroup "please CLOSE" = none
    ∧ firstBraceMatch "please CLOSE" = none
    ∧ jsonLoads (sanitizeJsonString "please CLOSE") = none
    ∧ resultGet (parseDecisionResponse "please CLOSE") "next_action" =
        some (.str "CLOSE")
    ∧ JVal.str "CLOSE" ≠ JVal.str "ENRICH" := by
  refine ⟨by decide, by decide, rfl, rfl, by simp⟩

/-- Witness for C9 at a response with no JSON, no keywords. -/
theorem c9_parse_total_failure_fallback_witness :
    parseDecisionResponse "hello" = supervisorFallback "hello"
    ∧ resultGet (parseDecisionResponse "hello") "next_action" =
        some (.str ((supervisorActions.find?
          (fun a => strHasSub (pyUpper "hello") a)).getD "ENRICH"))
    ∧ parseVerdictResponse "hello" = verdictFallback "hello"
    ∧ resultGet (parseVerdictResponse "hello") "decision" =
        some (.str (if strHasSub (pyLower "hello") "escalate" then "escalate"
          else if strHasSub (pyLower "hello") "close" &&
              strHasSub (pyLower "hello") "false positive" then "close"
          else "needs_more_info")) :=
  c9_parse_total_failure_fallback "hello" "hello"
    (fun g hg => by
      rw [show fencedJsonGroup "hello" = none from by decide] at hg
      exact Option.noConfusion hg)
    (fun g hg => by
      rw [show firstBraceMatch "hello" = none from by decide] at hg
      exact Option.noConfusion hg)
    rfl
    (fun g hg => by
      rw [show fencedJsonGroup "hello" = none from by decide] at hg
      exact Option.noConfusion hg)
    (fun g hg => by
      rw [show greedyBraceMatch "hello" = none from by decide] at hg
      exact Option.noConfusion hg)
    rfl

end SocTalk
